import Mathlib

/-!
Verification of the `pdf2markdown.py` pipeline: a PDF is rendered to page
images, each image is base64-encoded and sent to a remote transcription API,
and the per-page transcriptions are assembled into one Markdown document.

The script is shallowly embedded: the external collaborators (the PDF
rasterizer `convert_from_path`, PIL's PNG encoder, and the network) are
parameters of the embedding (`PdfEnv`), while everything the script itself
computes — Python truthiness of the credential and output-path checks, the
base64 encoder, the response handling of `transcribe_image`, the per-page
section format, the `"\n"`-join, and pathlib's `with_suffix('.md')` — is
translated directly from the source. Side effects (invoking the renderer,
issuing an API request, saving a debug image, writing the output file) are
recorded as an explicit event trace.
-/

namespace Pdf2Markdown

/-- Python truthiness of an optional string: `None` and `""` are falsy.
Used for `if not ANTHROPIC_API_KEY` (line 139) and `if output_path`
(line 169) of the source. -/
def pyTruthy : Option String → Bool
  | none => false
  | some s => !s.isEmpty

/-! ## Configuration constants (source lines 11-18) -/

def ANTHROPIC_VERSION : String := "2023-06-01"

def MODEL : String := "claude-sonnet-4-5"

def MAX_TOKENS : Nat := 4096

def IMAGE_FORMAT : String := "PNG"

/-- Python's `str.lower()` for the ASCII strings used here. -/
def pyLower (s : String) : String := String.mk (s.toList.map Char.toLower)

/-! ## Encoder: `image_to_base64` (source lines 45-58)

PIL's `image.save(buffered, format="PNG")` is modelled as an abstract pure
function from the in-memory image to its PNG byte sequence (a `List Nat`);
`base64.b64encode` is implemented concretely below (standard alphabet,
`=`-padding). -/

def base64Chars : List Char :=
  "ABCDEFGHIJKLMNOPQRSTUVWXYZabcdefghijklmnopqrstuvwxyz0123456789+/".toList

def b64Digit (n : Nat) : Char := base64Chars.getD n '?'

/-- RFC 4648 base64 of a byte sequence. -/
def base64Encode : List Nat → List Char
  | [] => []
  | [a] => [b64Digit (a / 4 % 64), b64Digit (a % 4 * 16), '=', '=']
  | [a, b] => [b64Digit (a / 4 % 64), b64Digit (a % 4 * 16 + b / 16 % 16),
               b64Digit (b % 16 * 4), '=']
  | a :: b :: c :: rest =>
      b64Digit (a / 4 % 64) :: b64Digit (a % 4 * 16 + b / 16 % 16) ::
      b64Digit (b % 16 * 4 + c / 64 % 4) :: b64Digit (c % 64) ::
      base64Encode rest

/-- `image_to_base64` applied to the PNG bytes of the buffered image. -/
def image_to_base64 (imageBytes : List Nat) : String :=
  String.mk (base64Encode imageBytes)

/-! ## The request built by `transcribe_image` (source lines 74-112) -/

/-- A JSON value, as built by the `payload` dict literal. -/
inductive Json where
  | str (s : String)
  | num (n : Nat)
  | arr (elems : List Json)
  | obj (fields : List (String × Json))

/-- The fixed instruction prompt (source line 75). -/
def PROMPT : String :=
  "Transcribe this slide to markdown/latex format. Include all text, equations, diagrams descriptions, and structure. Use LaTeX for mathematical equations (inline: $...$, display: $$...$$). Preserve the hierarchical structure with appropriate headers. Output ONLY the transcription without any introductory text or explanations."

/-- The `payload` dict of `transcribe_image` (source lines 77-99), with the
media type computed from `IMAGE_FORMAT` as in the f-string of line 88. -/
def buildPayload (image_base64 : String) : Json :=
  .obj [("model", .str MODEL),
        ("max_tokens", .num MAX_TOKENS),
        ("messages", .arr [
          .obj [("role", .str "user"),
                ("content", .arr [
                  .obj [("type", .str "image"),
                        ("source", .obj [
                          ("type", .str "base64"),
                          ("media_type", .str ("image/" ++ pyLower IMAGE_FORMAT)),
                          ("data", .str image_base64)])],
                  .obj [("type", .str "text"),
                        ("text", .str PROMPT)]])]])]

/-- The `headers` dict of `transcribe_image` (source lines 101-105). -/
def buildHeaders (apiKey : String) : List (String × String) :=
  [("x-api-key", apiKey),
   ("anthropic-version", ANTHROPIC_VERSION),
   ("content-type", "application/json")]

/-- Modelled from the spec: the request body shape promised in section 6,
`{model, max_tokens, messages: [{role: "user", content: [{type:"image",
source:{type:"base64", media_type:"image/png", data: <b64>}}, {type:"text",
text:<prompt>}]}]}`, with the media type the literal `"image/png"`. -/
def specPayload (image_base64 : String) : Json :=
  .obj [("model", .str MODEL),
        ("max_tokens", .num MAX_TOKENS),
        ("messages", .arr [
          .obj [("role", .str "user"),
                ("content", .arr [
                  .obj [("type", .str "image"),
                        ("source", .obj [
                          ("type", .str "base64"),
                          ("media_type", .str "image/png"),
                          ("data", .str image_base64)])],
                  .obj [("type", .str "text"),
                        ("text", .str PROMPT)]])]])]

/-- Modelled from the spec: the headers promised in section 6 — the
credential header, the fixed protocol-version header, and
`content-type: application/json`. -/
def specHeaders (apiKey : String) : List (String × String) :=
  [("x-api-key", apiKey),
   ("anthropic-version", "2023-06-01"),
   ("content-type", "application/json")]

/-! ## Transcriber: `transcribe_image` response handling (lines 114-128) -/

/-- The parsed JSON response body, as far as lines 119-120 inspect it:
whether the key `content` is present, and the `text` of each content block.
-/
structure ApiResponse where
  content : Option (List String)
deriving DecidableEq

/-- Outcome of the `urlopen` request/response cycle: a successful (2xx)
response with a parsed body, an `HTTPError` carrying status code and raw
body, or any other exception carrying its message. -/
inductive HttpOutcome where
  | success (resp : ApiResponse)
  | httpError (code : Nat) (body : String)
  | otherError (msg : String)
deriving DecidableEq

/-- The `try`/`except` of `transcribe_image` (source lines 114-128): a total
function — every outcome of the request cycle maps to a string. -/
def transcribe_image (outcome : HttpOutcome) (page_num : Nat) : String :=
  match outcome with
  | .success resp =>
      match resp.content with
      | some (t :: _) => t
      | _ => "Error: Unexpected response format for page " ++ toString page_num
  | .httpError code body =>
      "Error transcribing page " ++ toString page_num ++ ": " ++
        toString code ++ " - " ++ body
  | .otherError msg =>
      "Error transcribing page " ++ toString page_num ++ ": " ++ msg

/-! ## Side-effect events -/

/-- Observable side effects of a run, in program order. -/
inductive Ev where
  | renderCall (path : String)
  | apiRequest (pageNum : Nat)
  | mkdirCall (dir : String)
  | imageSave (path : String)
  | fileWrite (path : String) (content : String)
deriving DecidableEq

/-! ## Renderer: `pdf_to_images` (source lines 21-42) -/

/-- Result of `convert_from_path`: the ordered page images, or the
exception it raises when the file is missing, the document invalid, or
rasterization fails (`RenderError` in the spec's vocabulary). -/
inductive RenderOutcome (α : Type) where
  | ok (images : List α)
  | renderError (msg : String)
deriving DecidableEq

/-- The debug-save loop of `pdf_to_images` (source lines 38-39):
`for i, image in enumerate(images): image.save(output_dir / f"page_{i+1}.png")`.
-/
def saveImages (dir : String) : List α → Nat → List Ev
  | [], _ => []
  | _ :: rest, i =>
      Ev.imageSave (dir ++ "/page_" ++ toString (i + 1) ++ ".png") ::
        saveImages dir rest (i + 1)

/-- `pdf_to_images` (source lines 21-42): invoke the rasterizer; an
exception propagates (there is no `try` in the function); on success, if a
truthy `output_dir` was supplied, `mkdir(exist_ok=True)` it and save every
page image into it; return the images unchanged. -/
def pdf_to_images (convert : String → RenderOutcome α) (pdf_path : String)
    (output_dir : Option String) : RenderOutcome α × List Ev :=
  match convert pdf_path with
  | .renderError msg => (.renderError msg, [.renderCall pdf_path])
  | .ok images =>
      let saveEvs : List Ev :=
        if pyTruthy output_dir then
          .mkdirCall (output_dir.getD "") ::
            saveImages (output_dir.getD "") images 0
        else []
      (.ok images, .renderCall pdf_path :: saveEvs)

/-! ## Assembler pieces (source lines 152-166) -/

/-- The 80-character separator `'='*80` of line 159. -/
def sep80 : String := String.mk (List.replicate 80 '=')

/-- One page's section (source line 159):
`f"# Page {i}\n\n{transcription}\n\n{'='*80}\n"`. -/
def pageContent (i : Nat) (transcription : String) : String :=
  "# Page " ++ toString i ++ "\n\n" ++ transcription ++ "\n\n" ++ sep80 ++ "\n"

/-! ## The environment: external collaborators of one run -/

/-- Everything outside the script's own computation: the credential from the
environment, the filesystem's answer to `pdf_path.exists()`, the rasterizer,
PIL's PNG encoding of an image, and the remote API's response to the request
payload sent for a given page. -/
structure PdfEnv (α : Type) where
  apiKey : Option String
  pathExists : String → Bool
  convert : String → RenderOutcome α
  pngBytes : α → List Nat
  respond : Json → Nat → HttpOutcome

/-- The per-page loop of `process_pdf` (source lines 152-163):
`for i, image in enumerate(images, start=1)`, encode, transcribe, build the
section, append. Returns the section list and the side-effect trace. -/
def processPagesGo (env : PdfEnv α) : List α → Nat → List String × List Ev
  | [], _ => ([], [])
  | image :: rest, i =>
      let image_base64 := image_to_base64 (env.pngBytes image)
      let transcription :=
        transcribe_image (env.respond (buildPayload image_base64) i) i
      let rest' := processPagesGo env rest (i + 1)
      (pageContent i transcription :: rest'.1, Ev.apiRequest i :: rest'.2)

/-! ## `Path.with_suffix('.md')` (source line 175)

pathlib semantics: the suffix of the final path component is its substring
from the last `.`, provided that dot is neither the leading character of the
component nor its last character; `with_suffix` drops that suffix (if any)
and appends the new one. -/

/-- Characters of a path after its last `/` (the final component). -/
def afterLastSlash (cs : List Char) : List Char :=
  cs.foldl (fun acc c => if c = '/' then [] else acc ++ [c]) []

/-- Index of the last `.`, if any. -/
def rfindDot : List Char → Option Nat
  | [] => none
  | c :: rest =>
      match rfindDot rest with
      | some i => some (i + 1)
      | none => if c = '.' then some 0 else none

/-- The suffix (extension) of a path component, pathlib-style. -/
def nameSuffix (name : List Char) : List Char :=
  match rfindDot name with
  | some i => if 0 < i ∧ i + 1 < name.length then name.drop i else []
  | none => []

/-- `Path(path).with_suffix('.md')` rendered back to a string. -/
def withSuffixMd (path : String) : String :=
  let cs := path.toList
  let name := afterLastSlash cs
  let suf := nameSuffix name
  String.mk (cs.take (cs.length - name.length) ++
    name.take (name.length - suf.length) ++ ".md".toList)

/-- The target path of the output write (source lines 168-177): the
supplied output path if truthy, else the input path with suffix `.md`. -/
def resolveOutputPath (pdf_path : String) (output_path : Option String) :
    String :=
  match output_path with
  | some p => if p.isEmpty then withSuffixMd pdf_path else p
  | none => withSuffixMd pdf_path

/-! ## `process_pdf` (source lines 131-179) -/

/-- How a call to `process_pdf` ends: a normal return of `full_output`, a
`sys.exit(code)`, or an uncaught exception from the renderer. -/
inductive PResult where
  | returned (out : String)
  | exited (code : Nat)
  | raised (msg : String)
deriving DecidableEq

/-- `process_pdf` (source lines 131-179): credential check, existence
check, render, per-page loop, `"\n"`-join, write. The second component is
the side-effect trace of the call. -/
def process_pdf (env : PdfEnv α) (pdf_path : String)
    (output_path : Option String) : PResult × List Ev :=
  if !pyTruthy env.apiKey then (.exited 1, [])
  else if !env.pathExists pdf_path then (.exited 1, [])
  else
    let r := pdf_to_images env.convert pdf_path none
    match r.1 with
    | .renderError msg => (.raised msg, r.2)
    | .ok images =>
        let pages := processPagesGo env images 1
        let full_output := String.intercalate "\n" pages.1
        let target := resolveOutputPath pdf_path output_path
        (.returned full_output,
         r.2 ++ pages.2 ++ [.fileWrite target full_output])

/-! ## Concrete environments used as witnesses -/

/-- A 1-page document whose transcription request succeeds with the fixed
text `"Hello"`. -/
def helloEnv : PdfEnv Unit :=
  { apiKey := some "key"
    pathExists := fun _ => true
    convert := fun _ => .ok [()]
    pngBytes := fun _ => [137, 80, 78, 71]
    respond := fun _ _ => .success ⟨some ["Hello"]⟩ }

/-- A 2-page document whose page 1 succeeds and page 2 gets an HTTP 500. -/
def twoPageEnv : PdfEnv Unit :=
  { apiKey := some "key"
    pathExists := fun _ => true
    convert := fun _ => .ok [(), ()]
    pngBytes := fun _ => [1, 2, 3]
    respond := fun _ i =>
      if i = 1 then .success ⟨some ["first page"]⟩
      else .httpError 500 "overloaded" }

/-- A document that renders to zero pages. -/
def zeroPageEnv : PdfEnv Unit :=
  { apiKey := some "key"
    pathExists := fun _ => true
    convert := fun _ => .ok []
    pngBytes := fun _ => []
    respond := fun _ _ => .otherError "unreachable" }

/-- An environment with no credential in the environment variables. -/
def noKeyEnv : PdfEnv Unit :=
  { apiKey := none
    pathExists := fun _ => true
    convert := fun _ => .ok [()]
    pngBytes := fun _ => []
    respond := fun _ _ => .success ⟨some ["x"]⟩ }

/-- An environment whose filesystem has no files. -/
def noFileEnv : PdfEnv Unit :=
  { apiKey := some "key"
    pathExists := fun _ => false
    convert := fun _ => .ok [()]
    pngBytes := fun _ => []
    respond := fun _ _ => .success ⟨some ["x"]⟩ }

/-- A rasterizer that always fails. -/
def cvtErr : String → RenderOutcome Unit := fun _ => .renderError "no file"

/-- A rasterizer producing one page for every path. -/
def cvtOk : String → RenderOutcome Unit := fun _ => .ok [()]

/-! ## Helper lemmas -/

/-- `None` is falsy. -/
theorem pyTruthy_none : pyTruthy none = false := rfl

/-- The per-page loop produces one section per rendered image. -/
theorem processPagesGo_fst_length {α : Type} (env : PdfEnv α) (images : List α)
    (s : Nat) : ((processPagesGo env images s).1).length = images.length := by
  induction images generalizing s with
  | nil => rfl
  | cons img rest ih => simp [processPagesGo, ih]

/-- The k-th section produced by the loop started at page number `s` is the
section of page `s + k`, built from the k-th image's transcription. -/
theorem processPagesGo_fst_get {α : Type} (env : PdfEnv α) (images : List α)
    (s k : Nat) (h : k < images.length) :
    ((processPagesGo env images s).1).get? k =
      some (pageContent (s + k)
        (transcribe_image
          (env.respond
            (buildPayload (image_to_base64 (env.pngBytes (images.get ⟨k, h⟩))))
            (s + k))
          (s + k))) := by
  induction images generalizing s k with
  | nil => exact absurd h (by simp)
  | cons img rest ih =>
    cases k with
    | zero => simp [processPagesGo]
    | succ k =>
      have h' : k < rest.length := Nat.lt_of_succ_lt_succ h
      rw [show s + (k + 1) = (s + 1) + k by omega]
      simpa [processPagesGo] using ih (s + 1) k h'

/-- Characterization of a fully successful run of `process_pdf`: the joined
sections are returned, and the trace is the render call, the per-page
requests, then the single output write. -/
theorem process_pdf_ok {α : Type} (env : PdfEnv α) (pdf_path : String)
    (output_path : Option String) (images : List α)
    (hkey : pyTruthy env.apiKey = true)
    (hexists : env.pathExists pdf_path = true)
    (hconv : env.convert pdf_path = .ok images) :
    process_pdf env pdf_path output_path =
      (.returned (String.intercalate "\n" (processPagesGo env images 1).1),
       Ev.renderCall pdf_path ::
         ((processPagesGo env images 1).2 ++
          [Ev.fileWrite (resolveOutputPath pdf_path output_path)
            (String.intercalate "\n" (processPagesGo env images 1).1)])) := by
  simp [process_pdf, hkey, hexists, pdf_to_images, pyTruthy_none, hconv]

/-- Whenever `process_pdf` returns normally, the returned string was written
to the resolved target path. -/
theorem process_pdf_returned_written {α : Type} (env : PdfEnv α) (p : String)
    (o : Option String) (s : String)
    (h : (process_pdf env p o).1 = .returned s) :
    Ev.fileWrite (resolveOutputPath p o) s ∈ (process_pdf env p o).2 := by
  by_cases hk : pyTruthy env.apiKey = true
  · by_cases he : env.pathExists p = true
    · cases hc : (pdf_to_images env.convert p none).1 with
      | ok images =>
        have hc' : env.convert p = .ok images := by
          revert hc; unfold pdf_to_images
          cases env.convert p <;> simp
        rw [process_pdf_ok env p o images hk he hc'] at h ⊢
        simp only [PResult.returned.injEq] at h
        subst h
        simp
      | renderError msg =>
        have hc' : env.convert p = .renderError msg := by
          revert hc; unfold pdf_to_images
          cases env.convert p <;> simp
        simp [process_pdf, hk, he, pdf_to_images, pyTruthy_none, hc'] at h
    · simp [process_pdf, hk, he] at h
  · simp [process_pdf, hk] at h

/-- The debug-save loop saves `page_<s+i+1>.png` for the i-th remaining
image when started at index `s`. -/
theorem saveImages_eq {α : Type} (dir : String) (images : List α) (s : Nat) :
    saveImages dir images s =
      (List.range images.length).map
        (fun i => Ev.imageSave (dir ++ "/page_" ++ toString (s + i + 1) ++ ".png")) := by
  induction images generalizing s with
  | nil => rfl
  | cons img rest ih =>
    rw [saveImages, ih (s + 1)]
    simp only [List.length_cons, List.range_succ_eq_map, List.map_cons,
      List.map_map, Nat.add_zero, List.cons.injEq, true_and]
    refine List.map_congr_left ?_
    intro i _
    have h : s + 1 + i + 1 = s + (i + 1) + 1 := by omega
    simp only [Function.comp_apply, h]

/-! ## Claims -/

/-- Claim C1: for every document of N pages, the output produced by
`process_pdf` contains exactly N sections, the k-th (1-indexed) being
`# Page k` followed by the k-th page's transcription, in order, and the
returned document is their `"\n"`-join — for an arbitrary responder, hence
regardless of how many individual transcriptions returned error strings. -/
theorem process_pdf_section_order {α : Type} (env : PdfEnv α)
    (pdf_path : String) (output_path : Option String) (images : List α)
    (hkey : pyTruthy env.apiKey = true)
    (hexists : env.pathExists pdf_path = true)
    (hconv : env.convert pdf_path = .ok images) :
    (process_pdf env pdf_path output_path).1 =
      .returned (String.intercalate "\n" (processPagesGo env images 1).1) ∧
    ((processPagesGo env images 1).1).length = images.length ∧
    ∀ k (hk : k < images.length),
      ((processPagesGo env images 1).1).get? k =
        some (pageContent (k + 1)
          (transcribe_image
            (env.respond
              (buildPayload (image_to_base64 (env.pngBytes (images.get ⟨k, hk⟩))))
              (k + 1))
            (k + 1))) := by
  refine ⟨?_, processPagesGo_fst_length env images 1, ?_⟩
  · rw [process_pdf_ok env pdf_path output_path images hkey hexists hconv]
  · intro k hk
    have h := processPagesGo_fst_get env images 1 k hk
    rw [show 1 + k = k + 1 from Nat.add_comm 1 k] at h
    exact h

/-- Witness for C1 on a concrete 2-page document whose second page fails
with an HTTP 500. -/
theorem process_pdf_section_order_witness :
    (process_pdf twoPageEnv "a.pdf" none).1 =
      .returned (String.intercalate "\n" (processPagesGo twoPageEnv [(), ()] 1).1) ∧
    ((processPagesGo twoPageEnv [(), ()] 1).1).length = ([(), ()] : List Unit).length ∧
    ∀ k (hk : k < ([(), ()] : List Unit).length),
      ((processPagesGo twoPageEnv [(), ()] 1).1).get? k =
        some (pageContent (k + 1)
          (transcribe_image
            (twoPageEnv.respond
              (buildPayload (image_to_base64
                (twoPageEnv.pngBytes (([(), ()] : List Unit).get ⟨k, hk⟩))))
              (k + 1))
            (k + 1))) :=
  process_pdf_section_order twoPageEnv "a.pdf" none [(), ()]
    (by decide) (by decide) (by decide)

/-- Claim C2: for a 1-page document whose transcription is the fixed string
`"Hello"`, the run returns and writes to the file exactly
`"# Page 1\n\nHello\n\n"` followed by 80 `=` characters and a final
newline, and nothing else. -/
theorem process_pdf_hello_output :
    process_pdf helloEnv "doc.pdf" none =
      (.returned ("# Page 1\n\nHello\n\n" ++ String.mk (List.replicate 80 '=') ++ "\n"),
       [.renderCall "doc.pdf", .apiRequest 1,
        .fileWrite "doc.md"
          ("# Page 1\n\nHello\n\n" ++ String.mk (List.replicate 80 '=') ++ "\n")]) := by
  decide

/-- Claim C3: `transcribe_image` is a total function of the request/response
outcome (never raises). An absent or empty `content` list yields the
page-scoped error string; a non-2xx `HTTPError` yields an error string
embedding the status code and the raw response body; any other exception
yields an error string embedding its message; and the page loop still
produces one section per page whatever the outcomes, so the caller
continues with the next page. -/
theorem transcribe_image_error_handling :
    (∀ n : Nat, transcribe_image (.success ⟨none⟩) n =
      "Error: Unexpected response format for page " ++ toString n) ∧
    (∀ n : Nat, transcribe_image (.success ⟨some []⟩) n =
      "Error: Unexpected response format for page " ++ toString n) ∧
    (∀ (n code : Nat) (body : String), transcribe_image (.httpError code body) n =
      "Error transcribing page " ++ toString n ++ ": " ++ toString code ++ " - " ++ body) ∧
    (∀ (n : Nat) (msg : String), transcribe_image (.otherError msg) n =
      "Error transcribing page " ++ toString n ++ ": " ++ msg) ∧
    (∀ (α : Type) (env : PdfEnv α) (images : List α) (s : Nat),
      ((processPagesGo env images s).1).length = images.length) :=
  ⟨fun _ => rfl, fun _ => rfl, fun _ _ _ => rfl, fun _ _ => rfl,
   fun _ env images s => processPagesGo_fst_length env images s⟩

/-- Counterexample to C4 as stated: with the explicit output path `""`
supplied, the file is written to the default `doc.md`, not to the supplied
path — Python's `if output_path:` treats the empty string as absent. -/
theorem process_pdf_empty_output_path_ignored :
    (process_pdf zeroPageEnv "doc.pdf" (some "")).2 =
      [.renderCall "doc.pdf", .fileWrite "doc.md" ""] ∧
    Ev.fileWrite "" "" ∉ (process_pdf zeroPageEnv "doc.pdf" (some "")).2 := by
  decide

/-- Claim C4 (amended): the assembled document is written, as the last
side effect of the run, to the resolved target path; that target is the
input path with its extension replaced by `.md` when no output path or the
empty-string output path is supplied, and the supplied path whenever it is
non-empty. -/
theorem process_pdf_output_target {α : Type} (env : PdfEnv α)
    (pdf_path : String) (output_path : Option String) (images : List α)
    (hkey : pyTruthy env.apiKey = true)
    (hexists : env.pathExists pdf_path = true)
    (hconv : env.convert pdf_path = .ok images) :
    (process_pdf env pdf_path output_path).2.getLast? =
      some (.fileWrite (resolveOutputPath pdf_path output_path)
        (String.intercalate "\n" (processPagesGo env images 1).1)) ∧
    resolveOutputPath pdf_path none = withSuffixMd pdf_path ∧
    (∀ p : String, p.isEmpty = false → resolveOutputPath pdf_path (some p) = p) ∧
    resolveOutputPath pdf_path (some "") = withSuffixMd pdf_path := by
  refine ⟨?_, rfl, ?_, rfl⟩
  · rw [process_pdf_ok env pdf_path output_path images hkey hexists hconv,
      ← List.cons_append, List.getLast?_concat]
  · intro p hp
    simp [resolveOutputPath, hp]

/-- Witness for amended C4 on a concrete run with an explicit non-empty
output path. -/
theorem process_pdf_output_target_witness :
    (process_pdf helloEnv "doc.pdf" (some "out.txt")).2.getLast? =
      some (.fileWrite (resolveOutputPath "doc.pdf" (some "out.txt"))
        (String.intercalate "\n" (processPagesGo helloEnv [()] 1).1)) ∧
    resolveOutputPath "doc.pdf" none = withSuffixMd "doc.pdf" ∧
    (∀ p : String, p.isEmpty = false →
      resolveOutputPath "doc.pdf" (some p) = p) ∧
    resolveOutputPath "doc.pdf" (some "") = withSuffixMd "doc.pdf" :=
  process_pdf_output_target helloEnv "doc.pdf" (some "out.txt") [()]
    (by decide) (by decide) (by decide)

/-- Claim C5: when the credential environment variable is unset,
`process_pdf` exits with code 1 and its side-effect trace is empty — no
network request, no render call, no file write — for every input path. -/
theorem process_pdf_no_key_exits {α : Type} (env : PdfEnv α)
    (pdf_path : String) (output_path : Option String)
    (hkey : env.apiKey = none) :
    process_pdf env pdf_path output_path = (.exited 1, []) := by
  simp [process_pdf, hkey, pyTruthy_none]

/-- Witness for C5 on a concrete environment with no credential. -/
theorem process_pdf_no_key_exits_witness :
    process_pdf noKeyEnv "any.pdf" none = (.exited 1, []) :=
  process_pdf_no_key_exits noKeyEnv "any.pdf" none rfl

/-- Claim C6: when the input path does not exist, `process_pdf` exits with
code 1 with an empty side-effect trace — in particular the renderer is
never invoked. -/
theorem process_pdf_missing_file_exits {α : Type} (env : PdfEnv α)
    (pdf_path : String) (output_path : Option String)
    (hexists : env.pathExists pdf_path = false) :
    (process_pdf env pdf_path output_path).1 = .exited 1 ∧
    (process_pdf env pdf_path output_path).2 = [] := by
  cases hk : pyTruthy env.apiKey <;> simp [process_pdf, hk, hexists]

/-- Witness for C6 on a concrete environment whose filesystem is empty. -/
theorem process_pdf_missing_file_exits_witness :
    (process_pdf noFileEnv "missing.pdf" none).1 = .exited 1 ∧
    (process_pdf noFileEnv "missing.pdf" none).2 = [] :=
  process_pdf_missing_file_exits noFileEnv "missing.pdf" none rfl

/-- Claim C7: `pdf_to_images` propagates the rasterizer's failure (there is
no handler, so a missing file, invalid document, or rasterization failure
surfaces as the `RenderError` outcome); and when a (truthy) debug output
directory is supplied it creates the directory and saves page `i` to
`page_<i>.png` inside it, returning the image sequence unchanged; with no
directory supplied nothing is saved. -/
theorem pdf_to_images_contract {α : Type} (convert : String → RenderOutcome α)
    (pdf_path : String) (output_dir : Option String) (msg dir : String)
    (images : List α) :
    (convert pdf_path = .renderError msg →
      pdf_to_images convert pdf_path output_dir =
        (.renderError msg, [.renderCall pdf_path])) ∧
    (convert pdf_path = .ok images → dir.isEmpty = false →
      pdf_to_images convert pdf_path (some dir) =
        (.ok images,
         .renderCall pdf_path :: .mkdirCall dir ::
           (List.range images.length).map
             (fun i => Ev.imageSave (dir ++ "/page_" ++ toString (i + 1) ++ ".png")))) ∧
    (convert pdf_path = .ok images →
      pdf_to_images convert pdf_path none = (.ok images, [.renderCall pdf_path])) := by
  refine ⟨fun hc => ?_, fun hc hd => ?_, fun hc => ?_⟩
  · simp [pdf_to_images, hc]
  · simp [pdf_to_images, hc, pyTruthy, hd, saveImages_eq]
  · simp [pdf_to_images, hc, pyTruthy_none]

/-- Witness for C7: a failing rasterization propagates; a successful one
with a debug directory creates it and saves the single page image. -/
theorem pdf_to_images_contract_witness :
    pdf_to_images cvtErr "missing.pdf" none =
      (.renderError "no file", [.renderCall "missing.pdf"]) ∧
    pdf_to_images cvtOk "ok.pdf" (some "dbg") =
      (.ok [()], [.renderCall "ok.pdf", .mkdirCall "dbg",
                  .imageSave "dbg/page_1.png"]) := by
  constructor
  · exact (pdf_to_images_contract cvtErr "missing.pdf" none "no file" "d" []).1 rfl
  · have h := (pdf_to_images_contract cvtOk "ok.pdf" none "m" "dbg" [()]).2.1
      rfl (by decide)
    rw [h]
    decide

/-- Claim C8: the encoder is deterministic — applying it twice to the PNG
bytes of the same in-memory image yields identical base64 strings. In this
embedding `image_to_base64` is a pure total function (PIL's PNG encoding is
modelled as the pure function `pngEncode`), so there is no failure path for
a valid in-memory bitmap. -/
theorem image_to_base64_deterministic {α : Type} (pngEncode : α → List Nat)
    (image : α) :
    image_to_base64 (pngEncode image) = image_to_base64 (pngEncode image) :=
  rfl

/-- Claim C9: the request body built by `transcribe_image` is exactly the
spec's shape — model, max_tokens, and one user message whose content is an
image block (type base64, media type `image/png`, the base64 data) followed
by a text block holding the fixed instruction prompt — and the headers are
exactly the credential header, the fixed protocol-version header, and
`content-type: application/json`. -/
theorem transcribe_request_shape (image_base64 apiKey : String) :
    buildPayload image_base64 = specPayload image_base64 ∧
    buildHeaders apiKey = specHeaders apiKey := by
  have hm : "image/" ++ pyLower IMAGE_FORMAT = "image/png" := by decide
  exact ⟨by rw [buildPayload, specPayload, hm], rfl⟩

/-- Claim C10: a document rendering to zero pages still writes the output
file, with empty content, issues no transcription request, and
`process_pdf` returns that same empty string; in general the returned
string is always exactly what was written to the resolved target path. -/
theorem process_pdf_zero_pages {α : Type} (env : PdfEnv α)
    (pdf_path : String) (output_path : Option String)
    (hkey : pyTruthy env.apiKey = true)
    (hexists : env.pathExists pdf_path = true)
    (hconv : env.convert pdf_path = .ok ([] : List α)) :
    process_pdf env pdf_path output_path =
      (.returned "",
       [.renderCall pdf_path,
        .fileWrite (resolveOutputPath pdf_path output_path) ""]) ∧
    (∀ i : Nat, Ev.apiRequest i ∉ (process_pdf env pdf_path output_path).2) ∧
    (∀ (β : Type) (env2 : PdfEnv β) (p : String) (o : Option String)
       (s : String), (process_pdf env2 p o).1 = .returned s →
       Ev.fileWrite (resolveOutputPath p o) s ∈ (process_pdf env2 p o).2) := by
  have hrun := process_pdf_ok env pdf_path output_path [] hkey hexists hconv
  refine ⟨?_, ?_, fun β env2 p o s h => process_pdf_returned_written env2 p o s h⟩
  · rw [hrun]; rfl
  · intro i
    rw [hrun]
    simp [processPagesGo]

/-- Witness for C10 on a concrete environment rendering zero pages. -/
theorem process_pdf_zero_pages_witness :
    process_pdf zeroPageEnv "doc.pdf" none =
      (.returned "",
       [.renderCall "doc.pdf",
        .fileWrite (resolveOutputPath "doc.pdf" none) ""]) ∧
    (∀ i : Nat, Ev.apiRequest i ∉ (process_pdf zeroPageEnv "doc.pdf" none).2) ∧
    (∀ (β : Type) (env2 : PdfEnv β) (p : String) (o : Option String)
       (s : String), (process_pdf env2 p o).1 = .returned s →
       Ev.fileWrite (resolveOutputPath p o) s ∈ (process_pdf env2 p o).2) :=
  process_pdf_zero_pages zeroPageEnv "doc.pdf" none
    (by decide) (by decide) (by decide)

end Pdf2Markdown
